import Mathlib

/-!
Shallow embedding of the pybake project generator
(`src/pybake/config.py`, `src/pybake/templates.py`,
`src/pybake/project_generator.py`) together with theorems checking the
specification's claims about it.

Strings are modelled by Lean `String`; the Python string methods used by
the code (`str.replace` with one-character patterns, `str.lower`,
`str.split()` with no separator, `str.capitalize`, the `x or d` idiom on
optional strings) are modelled by explicit Lean functions below.  The
filesystem touched by the generator is modelled as a partial map from
path strings to file contents.
-/

/-! ## Models of the Python string primitives used by the code -/

/-- Model of Python `s.replace(old, new)` where `old` and `new` are single
characters: every occurrence of `old` in `s` is replaced by `new`. -/
def pyReplaceChar (s : String) (old new : Char) : String :=
  ⟨s.data.map fun c => if c = old then new else c⟩

/-- Model of Python `s.replace(old, "")` where `old` is a single
character: every occurrence of `old` is deleted. -/
def pyRemoveChar (s : String) (old : Char) : String :=
  ⟨s.data.filter fun c => c != old⟩

/-- ASCII model of Python `s.lower()`: each character is lowercased
(`Char.toLower` maps `A`–`Z` to `a`–`z` and fixes everything else). -/
def pyLower (s : String) : String :=
  ⟨s.data.map Char.toLower⟩

/-- The characters Python `str.split()` (no argument) treats as
separators (ASCII whitespace). -/
def pyIsSpace (c : Char) : Bool :=
  c == ' ' || c == '\t' || c == '\n' || c == '\x0b' || c == '\x0c' || c == '\r'

/-- Helper for `pySplit`: scans the character list, accumulating the
current word in reverse. -/
def pySplitAux : List Char → List Char → List String
  | [], acc => if acc = [] then [] else [⟨acc.reverse⟩]
  | c :: rest, acc =>
    if pyIsSpace c then
      if acc = [] then pySplitAux rest [] else ⟨acc.reverse⟩ :: pySplitAux rest []
    else pySplitAux rest (c :: acc)

/-- Model of Python `s.split()` with no separator: splits on runs of
whitespace and returns only the non-empty words. -/
def pySplit (s : String) : List String :=
  pySplitAux s.data []

/-- ASCII model of Python `s.capitalize()`: first character uppercased,
remaining characters lowercased. -/
def pyCapitalize (s : String) : String :=
  match s.data with
  | [] => ""
  | c :: rest => ⟨c.toUpper :: rest.map Char.toLower⟩

/-- Model of the Python idiom `v or dflt` for `v : str | None`: yields
`dflt` when `v` is `None` or the empty string (both falsy). -/
def pyOr (v : Option String) (dflt : String) : String :=
  match v with
  | none => dflt
  | some s => if s = "" then dflt else s

/-- Model of Python `sub in s` on strings: `sub` occurs contiguously in
`s`. -/
def pyContains (s sub : String) : Prop :=
  ∃ pre post, s = pre ++ sub ++ post

/-! ## `config.py`: the `ProjectConfig` dataclass -/

/-- The `ProjectConfig` dataclass of `config.py` (field values after a
successful construction). -/
structure ProjectConfig where
  name : String
  python_version : String
  description : String
  author : Option String := none
  email : Option String := none
deriving DecidableEq

/-- Constructing a `ProjectConfig`: the dataclass `__init__` followed by
`__post_init__`, which raises `ValueError` (the spec's
`ValidationError`) on an empty `name`, `python_version` or
`description`, in that order.  Python's `not s` on a string is true
exactly for the empty string. -/
def ProjectConfig.make (name python_version description : String)
    (author email : Option String) : Except String ProjectConfig :=
  if name = "" then .error "Project name cannot be empty"
  else if python_version = "" then .error "Python version cannot be empty"
  else if description = "" then .error "Project description cannot be empty"
  else .ok ⟨name, python_version, description, author, email⟩

/-- Model of `ProjectConfig.package_name`:
`self.name.replace("-", "_").replace(" ", "_").lower()`. -/
def ProjectConfig.package_name (c : ProjectConfig) : String :=
  pyLower (pyReplaceChar (pyReplaceChar c.name '-' '_') ' ' '_')

/-- Model of `ProjectConfig.class_name`:
`"".join(word.capitalize() for word in self.name.replace("-", " ").split())`. -/
def ProjectConfig.class_name (c : ProjectConfig) : String :=
  String.join ((pySplit (pyReplaceChar c.name '-' ' ')).map pyCapitalize)

/-! ## `templates.py`: the template catalog -/

/-- One catalog entry of `templates.py` (the dict value). -/
structure TemplateInfo where
  name : String
  description : String
  features : List String
deriving DecidableEq

/-- Model of `get_project_templates()`: the static catalog, as the ordered
association list of (id, entry) pairs of the Python dict literal. -/
def get_project_templates : List (String × TemplateInfo) :=
  [ ("standard",
     { name := "Standard Python Project"
       description := "Complete Python project with all modern tools"
       features :=
        [ "uv for dependency management"
        , "pyright for static analysis"
        , "ruff for linting and formatting"
        , "beartype for runtime type checking"
        , "pytest for testing"
        , "pre-commit for git hooks"
        , "GitHub Actions for CI/CD" ] })
  , ("minimal",
     { name := "Minimal Python Project"
       description := "Basic Python project with essential tools"
       features :=
        [ "uv for dependency management"
        , "ruff for linting and formatting"
        , "pytest for testing" ] })
  , ("web",
     { name := "Web Application"
       description := "Python web application template"
       features :=
        [ "FastAPI or Flask web framework"
        , "uv for dependency management"
        , "pyright for static analysis"
        , "ruff for linting and formatting"
        , "beartype for runtime type checking"
        , "pytest for testing"
        , "pre-commit for git hooks"
        , "GitHub Actions for CI/CD" ] }) ]

/-- Model of `get_template_config(template_name)`: dict lookup, raising
`ValueError` (the spec's `NotFoundError`) when the id is absent. -/
def get_template_config (template_name : String) : Except String TemplateInfo :=
  match List.find? (fun e => e.1 == template_name) get_project_templates with
  | some e => Except.ok e.2
  | none => Except.error ("Unknown template: " ++ template_name)


/-! ## `project_generator.py`: the content renderers

Each Python f-string is transcribed as an append of its literal segments
and the interpolated configuration values, in source order. -/

/-- Model of `ProjectGenerator._get_pyproject_content`. -/
def _get_pyproject_content (c : ProjectConfig) : String :=
  "[project]\nname = \"" ++ c.name
  ++ "\"\nversion = \"0.1.0\"\ndescription = \"" ++ c.description
  ++ "\"\nreadme = \"README.md\"\nrequires-python = \">=" ++ c.python_version
  ++ "\"\nauthors = [\n    \x7bname = \"" ++ pyOr c.author "Your Name"
  ++ "\", email = \"" ++ pyOr c.email "your.email@example.com"
  ++ "\"\x7d\n]\ndependencies = [\n    \"beartype>=0.16.0\",\n]\n\n[project.optional-dependencies]\ndev = [\n    \"pytest>=7.0.0\",\n    \"pytest-cov>=4.0.0\",\n    \"ruff>=0.12.9\",\n    \"pyright>=1.1.0\",\n    \"pre-commit>=3.0.0\",\n]\n\n[build-system]\nrequires = [\"hatchling\"]\nbuild-backend = \"hatchling.build\"\n\n[tool.ruff]\ntarget-version = \"py"
  ++ pyRemoveChar c.python_version '.'
  ++ "\"\nline-length = 88\nlint.select = [\n    \"E\",  # pycodestyle errors\n    \"W\",  # pycodestyle warnings\n    \"F\",  # pyflakes\n    \"I\",  # isort\n    \"B\",  # flake8-bugbear\n    \"C4\", # flake8-comprehensions\n    \"UP\", # pyupgrade\n]\nlint.ignore = [\"E501\"]\n\n[tool.ruff.format]\nquote-style = \"double\"\nindent-style = \"space\"\nskip-magic-trailing-comma = false\nline-ending = \"auto\"\n\n[tool.pyright]\ninclude = [\"src\"]\nexclude = [\n    \"**/node_modules\",\n    \"**/__pycache__\",\n    \".venv\",\n    \".git\",\n]\nreportMissingImports = \"warning\"\nreportMissingTypeStubs = false\npythonVersion = \"" ++ c.python_version
  ++ "\"\n\n[tool.pytest.ini_options]\ntestpaths = [\"tests\"]\npython_files = [\"test_*.py\"]\npython_classes = [\"Test*\"]\npython_functions = [\"test_*\"]\naddopts = [\n    \"--strict-markers\",\n    \"--strict-config\",\n    \"--cov=src\",\n    \"--cov-report=term-missing\",\n    \"--cov-report=html\",\n    \"--cov-report=xml\",\n]\n\n[tool.coverage.run]\nsource = [\"src\"]\nomit = [\n    \"*/tests/*\",\n    \"*/test_*\",\n]\n"

/-- Model of `ProjectGenerator._get_gitignore_content` (static). -/
def _get_gitignore_content : String :=
  "# Byte-compiled / optimized / DLL files\n__pycache__/\n*.py[cod]\n*$py.class\n\n# C extensions\n*.so\n\n# Distribution / packaging\n.Python\nbuild/\ndevelop-eggs/\ndist/\ndownloads/\neggs/\n.eggs/\nlib/\nlib64/\nparts/\nsdist/\nvar/\nwheels/\nshare/python-wheels/\n*.egg-info/\n.installed.cfg\n*.egg\nMANIFEST\n\n# PyInstaller\n*.manifest\n*.spec\n\n# Installer logs\npip-log.txt\npip-delete-this-directory.txt\n\n# Unit test / coverage reports\nhtmlcov/\n.tox/\n.nox/\n.coverage\n.coverage.*\n.cache\nnosetests.xml\ncoverage.xml\n*.cover\n*.py,cover\n.hypothesis/\n.pytest_cache/\ncover/\n\n# Translations\n*.mo\n*.pot\n\n# Django stuff:\n*.log\nlocal_settings.py\ndb.sqlite3\ndb.sqlite3-journal\n\n# Flask stuff:\ninstance/\n.webassets-cache\n\n# Scrapy stuff:\n.scrapy\n\n# Sphinx documentation\ndocs/_build/\n\n# PyBuilder\n.pybuilder/\ntarget/\n\n# Jupyter Notebook\n.ipynb_checkpoints\n\n# IPython\nprofile_default/\nipython_config.py\n\n# pyenv\n.python-version\n\n# pipenv\nPipfile.lock\n\n# poetry\npoetry.lock\n\n# pdm\n.pdm.toml\n\n# PEP 582\n__pypackages__/\n\n# Celery stuff\ncelerybeat-schedule\ncelerybeat.pid\n\n# SageMath parsed files\n*.sage.py\n\n# Environments\n.env\n.venv\nenv/\nvenv/\nENV/\nenv.bak/\nvenv.bak/\n\n# Spyder project settings\n.spyderproject\n.spyproject\n\n# Rope project settings\n.ropeproject\n\n# mkdocs documentation\n/site\n\n# mypy\n.mypy_cache/\n.dmypy.json\ndmypy.json\n\n# Pyre type checker\n.pyre/\n\n# pytype static type analyzer\n.pytype/\n\n# Cython debug symbols\ncython_debug/\n\n# PyCharm\n.idea/\n\n# VS Code\n.vscode/\n\n# macOS\n.DS_Store\n\n# Windows\nThumbs.db\nehthumbs.db\nDesktop.ini\n\n# uv\n.uv/\nuv.lock\n"

/-- Model of `ProjectGenerator._get_readme_content`. -/
def _get_readme_content (c : ProjectConfig) : String :=
  "# " ++ c.name
  ++ "\n\n" ++ c.description
  ++ "\n\n## Requirements\n\n- Python " ++ c.python_version
  ++ "+\n- uv (recommended) or pip\n\n## Installation\n\n1. Clone the repository:\n   ```bash\n   git clone <your-repo-url>\n   cd " ++ c.name
  ++ "\n   ```\n\n2. Install dependencies:\n   ```bash\n   uv sync\n   ```\n\n3. Activate virtual environment:\n   ```bash\n   uv shell\n   ```\n\n## Development\n\n### Running tests\n```bash\npytest\n```\n\n### Code quality\n```bash\nruff check .\nruff format .\n```\n\n### Type checking\n```bash\npyright\n```\n\n### Pre-commit hooks\n```bash\npre-commit install\npre-commit run --all-files\n```\n\n## Project Structure\n\n```\n" ++ c.name
  ++ "/\n├── src/\n│   └── " ++ c.package_name
  ++ "/\n│       ├── __init__.py\n│       └── main.py\n├── tests/\n│   ├── __init__.py\n│   └── test_" ++ c.package_name
  ++ ".py\n├── .github/workflows/\n├── pyproject.toml\n└── .pre-commit-config.yaml\n```\n\n## Contributing\n\n1. Fork the repository\n2. Create a feature branch\n3. Make your changes\n4. Run tests and quality checks\n5. Submit a pull request\n\n## License\n\nThis project is licensed under the MIT License - see the LICENSE file for details.\n\n## Author\n\n" ++ pyOr c.author "Your Name"
  ++ " - " ++ pyOr c.email "your.email@example.com"
  ++ "\n"

/-- Model of `ProjectGenerator._get_precommit_content` (static). -/
def _get_precommit_content : String :=
  "repos:\n  - repo: https://github.com/pre-commit/pre-commit-hooks\n    rev: v4.5.0\n    hooks:\n      - id: trailing-whitespace\n      - id: end-of-file-fixer\n      - id: check-yaml\n      - id: check-added-large-files\n      - id: check-merge-conflict\n\n  - repo: https://github.com/astral-sh/ruff-pre-commit\n    rev: v0.12.9\n    hooks:\n      - id: ruff\n        args: [--fix]\n      - id: ruff-format\n\n  - repo: https://github.com/pre-commit/mirrors-mypy\n    rev: v1.8.0\n    hooks:\n      - id: mypy\n        additional_dependencies: [types-all]\n"

/-- Model of `ProjectGenerator._get_github_actions_content`.  The Python source
writes `${{{{ matrix.python-version }}}}` inside an f-string, which
renders as a literal `$` followed by doubly-braced `matrix.python-version`. -/
def _get_github_actions_content (c : ProjectConfig) : String :=
  "name: CI\n\non:\n  push:\n    branches: [ main, develop ]\n  pull_request:\n    branches: [ main, develop ]\n\njobs:\n  test:\n    runs-on: ubuntu-latest\n    strategy:\n      matrix:\n        python-version: [\"" ++ c.python_version
  ++ "\"]\n\n    steps:\n    - uses: actions/checkout@v4\n    \n    - name: Set up Python $\x7b\x7b matrix.python-version \x7d\x7d\n      uses: actions/setup-python@v4\n      with:\n        python-version: $\x7b\x7b matrix.python-version \x7d\x7d\n    \n    - name: Install uv\n      uses: astral-sh/setup-uv@v1\n      with:\n        version: latest\n    \n    - name: Install dependencies\n      run: uv sync\n    \n    - name: Run linting\n      run: uv run ruff check .\n    \n    - name: Run formatting check\n      run: uv run ruff format --check .\n    \n    - name: Run type checking\n      run: uv run pyright\n    \n    - name: Run tests\n      run: uv run pytest --cov=src --cov-report=xml\n    \n    - name: Upload coverage to Codecov\n      uses: codecov/codecov-action@v3\n      with:\n        file: ./coverage.xml\n        fail_ci_if_error: false\n"

/-- Model of `ProjectGenerator._get_init_content`. -/
def _get_init_content (c : ProjectConfig) : String :=
  "\"\"\"Package " ++ c.name
  ++ ".\"\"\"\n\n__version__ = \"0.1.0\"\n__author__ = \"" ++ pyOr c.author "Your Name"
  ++ "\"\n__email__ = \"" ++ pyOr c.email "your.email@example.com"
  ++ "\"\n\nfrom .main import main\n\n__all__ = [\"main\"]\n"

/-- Model of `ProjectGenerator._get_main_content`. -/
def _get_main_content (c : ProjectConfig) : String :=
  "\"\"\"Main module for " ++ c.name
  ++ ".\"\"\"\n\nfrom beartype import beartype\n\n\n@beartype\ndef main() -> None:\n    \"\"\"Main function.\"\"\"\n    print(\"Hello from " ++ c.name
  ++ "!\")\n\n\nif __name__ == \"__main__\":\n    main()\n"

/-- Model of `ProjectGenerator._get_test_content`. -/
def _get_test_content (c : ProjectConfig) : String :=
  "\"\"\"Tests for " ++ c.name
  ++ ".\"\"\"\n\nimport pytest\nfrom " ++ c.package_name
  ++ ".main import main\n\n\ndef test_main(capsys):\n    \"\"\"Test main function output.\"\"\"\n    main()\n    captured = capsys.readouterr()\n    assert \"" ++ c.name
  ++ "\" in captured.out\n\n\ndef test_main_returns_none():\n    \"\"\"Test main function return value.\"\"\"\n    result = main()\n    assert result is None\n"

/-! ## `project_generator.py`: the directory/file materializer

The filesystem is modelled as a partial map from absolute path strings
to file contents.  `Path / x` is modelled as appending `"/" ++ x`.
Directory creation (`mkdir(parents=True, exist_ok=True)`) never touches
file contents and never fails on an existing directory, so it is the
identity on this model; `_make_scripts_executable` is a `pass` in the
source. -/

/-- The filesystem: a partial map from path to file content. -/
def FS : Type := String → Option String

/-- Model of `Path.write_text`: overwrites (or creates) the file at
`file_path` with `content`, leaving every other path untouched. -/
def write_text (fs : FS) (file_path : String) (content : String) : FS :=
  fun p => if p = file_path then some content else fs p

/-- Model of `ProjectGenerator._generate_file(path, filename, content)`:
writes `content` to `path / filename`. -/
def _generate_file (fs : FS) (path filename content : String) : FS :=
  write_text fs (path ++ "/" ++ filename) content

/-- Model of `ProjectGenerator._generate_project_files(project_path)`: the ten
`_generate_file` calls, in source order. -/
def _generate_project_files (c : ProjectConfig) (project_path : String) (fs : FS) : FS :=
  let fs := _generate_file fs project_path "pyproject.toml" (_get_pyproject_content c)
  let fs := _generate_file fs project_path ".python-version" c.python_version
  let fs := _generate_file fs project_path ".gitignore" _get_gitignore_content
  let fs := _generate_file fs project_path "README.md" (_get_readme_content c)
  let fs := _generate_file fs project_path ".pre-commit-config.yaml" _get_precommit_content
  let fs := _generate_file fs (project_path ++ "/" ++ ".github" ++ "/" ++ "workflows") "ci.yml"
    (_get_github_actions_content c)
  let fs := _generate_file fs (project_path ++ "/" ++ "src" ++ "/" ++ c.package_name) "__init__.py"
    (_get_init_content c)
  let fs := _generate_file fs (project_path ++ "/" ++ "src" ++ "/" ++ c.package_name) "main.py"
    (_get_main_content c)
  let fs := _generate_file fs (project_path ++ "/" ++ "tests") "__init__.py" ""
  let fs := _generate_file fs (project_path ++ "/" ++ "tests") ("test_" ++ c.package_name ++ ".py")
    (_get_test_content c)
  fs

/-- Model of `ProjectGenerator.create_project(project_path)`: creates the project
directory and the directory skeleton (identities on the file map), then
generates all project files; `_make_scripts_executable` is a no-op. -/
def create_project (c : ProjectConfig) (project_path : String) (fs : FS) : FS :=
  _generate_project_files c project_path fs

/-- The ten paths written by `_generate_project_files`, in write order
(each shaped exactly as the corresponding `_generate_file` call builds
it). -/
def generated_paths (c : ProjectConfig) (project_path : String) : List String :=
  [ project_path ++ "/" ++ "pyproject.toml"
  , project_path ++ "/" ++ ".python-version"
  , project_path ++ "/" ++ ".gitignore"
  , project_path ++ "/" ++ "README.md"
  , project_path ++ "/" ++ ".pre-commit-config.yaml"
  , project_path ++ "/" ++ ".github" ++ "/" ++ "workflows" ++ "/" ++ "ci.yml"
  , project_path ++ "/" ++ "src" ++ "/" ++ c.package_name ++ "/" ++ "__init__.py"
  , project_path ++ "/" ++ "src" ++ "/" ++ c.package_name ++ "/" ++ "main.py"
  , project_path ++ "/" ++ "tests" ++ "/" ++ "__init__.py"
  , project_path ++ "/" ++ "tests" ++ "/" ++ ("test_" ++ c.package_name ++ ".py") ]

/-- The ten rendered file contents, in the order the materializer
writes them (`.python-version` is rendered as the configuration's
`python_version` field itself, `tests/__init__.py` as the empty
string). -/
def rendered_contents (c : ProjectConfig) : List String :=
  [ _get_pyproject_content c
  , c.python_version
  , _get_gitignore_content
  , _get_readme_content c
  , _get_precommit_content
  , _get_github_actions_content c
  , _get_init_content c
  , _get_main_content c
  , ""
  , _get_test_content c ]

/-- The claim's notion of a valid module identifier: non-empty, first
character an ASCII letter or underscore, every character an ASCII
letter, digit or underscore. -/
def isValidModuleIdentifier (s : String) : Bool :=
  match s.data with
  | [] => false
  | a :: rest =>
    (a.isAlpha || a == '_')
      && (a :: rest).all (fun ch => ch.isAlpha || ch.isDigit || ch == '_')

/-- Well-formedness of a project name under which `package_name` is a
valid module identifier (the amended claim C7): non-empty, made of
ASCII letters, digits, hyphens, spaces and underscores, and not
starting with a digit. -/
def nameOkForIdentifier (s : String) : Bool :=
  match s.data with
  | [] => false
  | a :: rest =>
    !a.isDigit
      && (a :: rest).all
        (fun ch => ch.isAlpha || ch.isDigit || ch == '-' || ch == ' ' || ch == '_')

/-! ## Helper lemmas: characters -/

theorem uint32_le_iff_toNat (a b : UInt32) : a ≤ b ↔ a.toNat ≤ b.toNat := by
  rw [UInt32.le_def]
  exact BitVec.le_def ..

theorem char_ofNatAux_toNat (n : Nat) (h : n.isValidChar) :
    (Char.ofNatAux n h).toNat = n := by
  simp [Char.ofNatAux, Char.toNat, UInt32.toNat]

theorem char_isUpper_iff (x : Char) : x.isUpper = true ↔ 65 ≤ x.toNat ∧ x.toNat ≤ 90 := by
  simp only [Char.isUpper, Bool.and_eq_true, decide_eq_true_eq, ge_iff_le]
  rw [uint32_le_iff_toNat, uint32_le_iff_toNat]
  have h65 : (65 : UInt32).toNat = 65 := by decide
  have h90 : (90 : UInt32).toNat = 90 := by decide
  rw [h65, h90]
  rfl

theorem char_isLower_iff (x : Char) : x.isLower = true ↔ 97 ≤ x.toNat ∧ x.toNat ≤ 122 := by
  simp only [Char.isLower, Bool.and_eq_true, decide_eq_true_eq, ge_iff_le]
  rw [uint32_le_iff_toNat, uint32_le_iff_toNat]
  have h97 : (97 : UInt32).toNat = 97 := by decide
  have h122 : (122 : UInt32).toNat = 122 := by decide
  rw [h97, h122]
  rfl

theorem char_isDigit_iff (x : Char) : x.isDigit = true ↔ 48 ≤ x.toNat ∧ x.toNat ≤ 57 := by
  simp only [Char.isDigit, Bool.and_eq_true, decide_eq_true_eq, ge_iff_le]
  rw [uint32_le_iff_toNat, uint32_le_iff_toNat]
  have h48 : (48 : UInt32).toNat = 48 := by decide
  have h57 : (57 : UInt32).toNat = 57 := by decide
  rw [h48, h57]
  rfl

theorem char_toLower_toNat_of_upper (x : Char) (h : 65 ≤ x.toNat ∧ x.toNat ≤ 90) :
    (Char.toLower x).toNat = x.toNat + 32 := by
  unfold Char.toLower
  have hv : (x.toNat + 32).isValidChar := Or.inl (by omega)
  simp only [ge_iff_le]
  rw [if_pos ⟨h.1, h.2⟩]
  simp [Char.ofNat, hv, char_ofNatAux_toNat]

theorem char_toLower_eq_self_of_not_upper (x : Char) (h : ¬(65 ≤ x.toNat ∧ x.toNat ≤ 90)) :
    Char.toLower x = x := by
  unfold Char.toLower
  simp only [ge_iff_le]
  rw [if_neg h]

theorem char_toLower_not_upper (x : Char) : (Char.toLower x).isUpper = false := by
  by_cases h : 65 ≤ x.toNat ∧ x.toNat ≤ 90
  · have := char_toLower_toNat_of_upper x h
    rw [Bool.eq_false_iff]
    intro hu
    have := (char_isUpper_iff _).mp hu
    omega
  · rw [char_toLower_eq_self_of_not_upper x h, Bool.eq_false_iff]
    intro hu
    exact h ((char_isUpper_iff _).mp hu)

theorem char_toLower_ne_low (x t : Char) (ht : t.toNat < 65) (hx : x ≠ t) :
    Char.toLower x ≠ t := by
  by_cases h : 65 ≤ x.toNat ∧ x.toNat ≤ 90
  · intro he
    have := char_toLower_toNat_of_upper x h
    rw [he] at this
    omega
  · rw [char_toLower_eq_self_of_not_upper x h]
    exact hx

theorem char_toLower_isAlpha (x : Char) (h : x.isAlpha = true) :
    (Char.toLower x).isAlpha = true := by
  rcases Bool.or_eq_true _ _ |>.mp h with hu | hl
  · have hr := (char_isUpper_iff _).mp hu
    have := char_toLower_toNat_of_upper x hr
    simp only [Char.isAlpha, Bool.or_eq_true]
    right
    rw [char_isLower_iff]
    omega
  · have hr := (char_isLower_iff _).mp hl
    rw [char_toLower_eq_self_of_not_upper x (by omega)]
    exact h

theorem char_toLower_isDigit (x : Char) (h : x.isDigit = true) :
    Char.toLower x = x := by
  have hr := (char_isDigit_iff _).mp h
  exact char_toLower_eq_self_of_not_upper x (by omega)

/-! ## Helper lemmas: strings -/

theorem string_append_cancel_left {a b : String} (s : String) :
    s ++ a = s ++ b ↔ a = b := by
  constructor
  · intro h
    have hd : s.data ++ a.data = s.data ++ b.data := by
      simpa [String.data_append] using congrArg String.data h
    exact String.ext (List.append_cancel_left hd)
  · intro h
    rw [h]

theorem string_append_ne_empty (s t : String) (h : s ≠ "") : s ++ t ≠ "" := by
  intro he
  apply h
  have hd : s.data ++ t.data = [] := by
    simpa [String.data_append] using congrArg String.data he
  exact String.ext ((List.append_eq_nil.mp hd).1)

theorem string_append_head_ne {s x t : String} (hs : s.data ≠ [])
    (h : s.data.head? ≠ t.data.head?) : s ++ x ≠ t := by
  intro he
  apply h
  have hd : s.data ++ x.data = t.data := by
    simpa [String.data_append] using congrArg String.data he
  rw [← hd]
  cases hse : s.data with
  | nil => exact absurd hse hs
  | cons c cs => simp


/-! ## Helper lemmas: the materializer -/

theorem generate_project_files_frame (c : ProjectConfig) (root : String) (fs : FS)
    (p : String) (hp : p ∉ generated_paths c root) :
    _generate_project_files c root fs p = fs p := by
  simp only [generated_paths, List.mem_cons, List.not_mem_nil, or_false, not_or] at hp
  obtain ⟨h1, h2, h3, h4, h5, h6, h7, h8, h9, h10⟩ := hp
  simp only [_generate_project_files, _generate_file, write_text]
  rw [if_neg h10, if_neg h9, if_neg h8, if_neg h7, if_neg h6, if_neg h5, if_neg h4,
    if_neg h3, if_neg h2, if_neg h1]

set_option maxHeartbeats 1000000 in
theorem generate_project_files_written (c : ProjectConfig) (root : String) (fs : FS)
    (p : String) (hp : p ∈ generated_paths c root) :
    (_generate_project_files c root fs p).isSome = true := by
  simp only [generated_paths, List.mem_cons, List.not_mem_nil, or_false] at hp
  rcases hp with h | h | h | h | h | h | h | h | h | h <;> subst h <;>
    simp only [_generate_project_files, _generate_file, write_text] <;>
    split_ifs <;> rfl

set_option maxHeartbeats 2000000 in
theorem generate_project_files_idem (c : ProjectConfig) (root : String) (fs : FS)
    (p : String) :
    _generate_project_files c root (_generate_project_files c root fs) p
      = _generate_project_files c root fs p := by
  simp only [_generate_project_files, _generate_file, write_text]
  split_ifs <;> rfl

/-! ## Claim theorems -/

/-- C2: constructing a Configuration with an empty name, empty
runtime version or empty description fails with a validation error, and
for every non-empty name, runtime version and description construction
succeeds. -/
theorem config_validation_spec (n pv d : String) (a e : Option String) :
    (∃ msg, ProjectConfig.make "" pv d a e = Except.error msg)
    ∧ (∃ msg, ProjectConfig.make n "" d a e = Except.error msg)
    ∧ (∃ msg, ProjectConfig.make n pv "" a e = Except.error msg)
    ∧ (n ≠ "" → pv ≠ "" → d ≠ "" →
        ProjectConfig.make n pv d a e = Except.ok ⟨n, pv, d, a, e⟩) := by
  refine ⟨⟨"Project name cannot be empty", by simp [ProjectConfig.make]⟩, ?_, ?_, ?_⟩
  · by_cases hn : n = ""
    · exact ⟨"Project name cannot be empty", by simp [ProjectConfig.make, hn]⟩
    · exact ⟨"Python version cannot be empty", by simp [ProjectConfig.make, hn]⟩
  · by_cases hn : n = ""
    · exact ⟨"Project name cannot be empty", by simp [ProjectConfig.make, hn]⟩
    · by_cases hp : pv = ""
      · exact ⟨"Python version cannot be empty", by simp [ProjectConfig.make, hn, hp]⟩
      · exact ⟨"Project description cannot be empty", by simp [ProjectConfig.make, hn, hp]⟩
  · intro hn hp hd
    simp [ProjectConfig.make, hn, hp, hd]

/-- Witness for C2 at a concrete non-empty configuration. -/
theorem config_validation_spec_witness :
    ("demo" ≠ "" ∧ "3.12" ≠ "" ∧ "A demo" ≠ "")
    ∧ ProjectConfig.make "demo" "3.12" "A demo" none none
        = Except.ok ⟨"demo", "3.12", "A demo", none, none⟩ :=
  ⟨⟨by decide, by decide, by decide⟩,
   (config_validation_spec "demo" "3.12" "A demo" none none).2.2.2
     (by decide) (by decide) (by decide)⟩

/-- C8: the catalog lookup returns the matching entry for a present id,
fails with a not-found error for an absent id; `"nonexistent"` fails and
`"standard"` has a non-empty feature list. -/
theorem template_lookup_spec (id : String) (info : TemplateInfo) :
    ((id, info) ∈ get_project_templates → get_template_config id = Except.ok info)
    ∧ (id ∉ get_project_templates.map Prod.fst →
        get_template_config id = Except.error ("Unknown template: " ++ id))
    ∧ get_template_config "nonexistent" = Except.error "Unknown template: nonexistent"
    ∧ (∃ i, get_template_config "standard" = Except.ok i ∧ i.features ≠ []) := by
  refine ⟨?_, ?_, rfl, ⟨_, rfl, by decide⟩⟩
  · intro h
    simp only [get_project_templates, List.mem_cons, List.not_mem_nil, or_false,
      Prod.mk.injEq] at h
    rcases h with ⟨h1, h2⟩ | ⟨h1, h2⟩ | ⟨h1, h2⟩ <;> subst h1 <;> subst h2 <;> rfl
  · intro h
    simp only [get_project_templates, List.map, List.mem_cons, List.not_mem_nil,
      or_false, not_or] at h
    obtain ⟨h1, h2, h3⟩ := h
    have g1 : (("standard" : String) == id) = false := by
      simp only [beq_eq_false_iff_ne, ne_eq]
      exact fun he => h1 he.symm
    have g2 : (("minimal" : String) == id) = false := by
      simp only [beq_eq_false_iff_ne, ne_eq]
      exact fun he => h2 he.symm
    have g3 : (("web" : String) == id) = false := by
      simp only [beq_eq_false_iff_ne, ne_eq]
      exact fun he => h3 he.symm
    simp [get_template_config, get_project_templates, List.find?, g1, g2, g3]

/-- Witness for C8: the lookup theorem applied at `"standard"` (present)
and `"nonexistent"` (absent). -/
theorem template_lookup_spec_witness :
    get_template_config "standard" = Except.ok
      { name := "Standard Python Project"
        description := "Complete Python project with all modern tools"
        features :=
          [ "uv for dependency management"
          , "pyright for static analysis"
          , "ruff for linting and formatting"
          , "beartype for runtime type checking"
          , "pytest for testing"
          , "pre-commit for git hooks"
          , "GitHub Actions for CI/CD" ] }
    ∧ get_template_config "nonexistent"
        = Except.error ("Unknown template: " ++ "nonexistent") :=
  ⟨(template_lookup_spec "standard" _).1 (by decide),
   (template_lookup_spec "nonexistent" ⟨"", "", []⟩).2.1 (by decide)⟩

/-- C9: validation rejects only empty strings: the whitespace-only name
`" "` is accepted, and for it `class_name` is empty and `package_name`
is all underscores. -/
theorem whitespace_name_accepted :
    (" " ≠ ""
      ∧ ProjectConfig.make " " "3.12" "A project" none none
          = Except.ok ⟨" ", "3.12", "A project", none, none⟩)
    ∧ ProjectConfig.class_name ⟨" ", "3.12", "A project", none, none⟩ = ""
    ∧ (ProjectConfig.package_name ⟨" ", "3.12", "A project", none, none⟩).data.all
        (fun ch => ch == '_') = true := by
  exact ⟨⟨by decide, rfl⟩, by decide, by decide⟩

/-- The transformation applied to each character of `name` by
`package_name`: both replacements followed by lowercasing. -/
theorem char_pkg_all (a : Char)
    (hclass : (a.isAlpha || a.isDigit || a == '-' || a == ' ' || a == '_') = true) :
    ((Char.toLower (if (if a = '-' then '_' else a) = ' ' then '_'
        else if a = '-' then '_' else a)).isAlpha
      || (Char.toLower (if (if a = '-' then '_' else a) = ' ' then '_'
        else if a = '-' then '_' else a)).isDigit
      || (Char.toLower (if (if a = '-' then '_' else a) = ' ' then '_'
        else if a = '-' then '_' else a)) == '_') = true := by
  simp only [Bool.or_eq_true, beq_iff_eq] at hclass
  rcases hclass with ((((ha | hd) | hdash) | hsp) | hun)
  · have h1 : a ≠ '-' := fun he => by rw [he] at ha; exact absurd ha (by decide)
    have h2 : a ≠ ' ' := fun he => by rw [he] at ha; exact absurd ha (by decide)
    rw [if_neg h1, if_neg h2]
    simp [char_toLower_isAlpha a ha]
  · have h1 : a ≠ '-' := fun he => by rw [he] at hd; exact absurd hd (by decide)
    have h2 : a ≠ ' ' := fun he => by rw [he] at hd; exact absurd hd (by decide)
    rw [if_neg h1, if_neg h2, char_toLower_isDigit a hd]
    simp [hd]
  · subst hdash; decide
  · subst hsp; decide
  · subst hun; decide

/-- Head version of `char_pkg_all`: a non-digit well-formed character
maps to a letter or underscore. -/
theorem char_pkg_head (a : Char)
    (hclass : (a.isAlpha || a.isDigit || a == '-' || a == ' ' || a == '_') = true)
    (hdig : a.isDigit = false) :
    ((Char.toLower (if (if a = '-' then '_' else a) = ' ' then '_'
        else if a = '-' then '_' else a)).isAlpha
      || (Char.toLower (if (if a = '-' then '_' else a) = ' ' then '_'
        else if a = '-' then '_' else a)) == '_') = true := by
  simp only [Bool.or_eq_true, beq_iff_eq] at hclass
  rcases hclass with ((((ha | hd) | hdash) | hsp) | hun)
  · have h1 : a ≠ '-' := fun he => by rw [he] at ha; exact absurd ha (by decide)
    have h2 : a ≠ ' ' := fun he => by rw [he] at ha; exact absurd ha (by decide)
    rw [if_neg h1, if_neg h2]
    simp [char_toLower_isAlpha a ha]
  · rw [hd] at hdig; exact absurd hdig (by decide)
  · subst hdash; decide
  · subst hsp; decide
  · subst hun; decide

/-- C4: `package_name` never contains a hyphen, space or uppercase ASCII
letter, and for `name = "My-Cool App"` the derivations give
`my_cool_app` and `MyCoolApp`. -/
theorem package_class_name_spec (c : ProjectConfig) :
    (∀ ch ∈ c.package_name.data, ch ≠ '-' ∧ ch ≠ ' ' ∧ ch.isUpper = false)
    ∧ (c.name = "My-Cool App" →
        c.package_name = "my_cool_app" ∧ c.class_name = "MyCoolApp") := by
  constructor
  · intro ch hch
    simp only [ProjectConfig.package_name, pyLower, pyReplaceChar, List.map_map,
      List.mem_map, Function.comp] at hch
    obtain ⟨a, _, rfl⟩ := hch
    refine ⟨char_toLower_ne_low _ '-' (by decide) ?_,
      char_toLower_ne_low _ ' ' (by decide) ?_, char_toLower_not_upper _⟩
    · split_ifs with h1 h2 <;> first | decide | assumption
    · split_ifs with h1 h2 <;> first | decide | assumption
  · intro h
    constructor
    · unfold ProjectConfig.package_name
      rw [h]
      decide
    · unfold ProjectConfig.class_name
      rw [h]
      decide

/-- Witness for C4 at `name = "My-Cool App"`. -/
theorem package_class_name_spec_witness :
    ('m' ∈ (⟨"My-Cool App", "3.12", "d", none, none⟩ : ProjectConfig).package_name.data
      ∧ ('m' ≠ '-' ∧ 'm' ≠ ' ' ∧ Char.isUpper 'm' = false))
    ∧ ((⟨"My-Cool App", "3.12", "d", none, none⟩ : ProjectConfig).name = "My-Cool App")
    ∧ ((⟨"My-Cool App", "3.12", "d", none, none⟩ : ProjectConfig).package_name
          = "my_cool_app"
        ∧ (⟨"My-Cool App", "3.12", "d", none, none⟩ : ProjectConfig).class_name
          = "MyCoolApp") :=
  ⟨⟨by decide, (package_class_name_spec ⟨"My-Cool App", "3.12", "d", none, none⟩).1 'm'
      (by decide)⟩,
   rfl,
   (package_class_name_spec ⟨"My-Cool App", "3.12", "d", none, none⟩).2 rfl⟩

/-- C6: every renderer is a pure function of the Configuration: the ten
rendered contents are byte-identical across repeated runs, and
configurations with identical fields render identically (there is no
other input, so rendering order cannot influence any output). -/
theorem renderers_deterministic (c₁ c₂ : ProjectConfig)
    (hn : c₁.name = c₂.name) (hv : c₁.python_version = c₂.python_version)
    (hd : c₁.description = c₂.description) (ha : c₁.author = c₂.author)
    (he : c₁.email = c₂.email) :
    rendered_contents c₁ = rendered_contents c₂
    ∧ ∀ c : ProjectConfig, rendered_contents c = rendered_contents c := by
  have hc : c₁ = c₂ := by
    cases c₁
    cases c₂
    simp_all
  exact ⟨by rw [hc], fun _ => rfl⟩

/-- Witness for C6 at two identical concrete configurations. -/
theorem renderers_deterministic_witness :
    rendered_contents ⟨"demo", "3.12", "A demo", none, none⟩
      = rendered_contents ⟨"demo", "3.12", "A demo", none, none⟩ :=
  (renderers_deterministic ⟨"demo", "3.12", "A demo", none, none⟩
    ⟨"demo", "3.12", "A demo", none, none⟩ rfl rfl rfl rfl rfl).1

/-- C7 counterexample: the name `"1"` yields a valid Configuration whose
`package_name` `"1"` is not a valid module identifier (it starts with a
digit). -/
theorem package_name_identifier_counterexample :
    ProjectConfig.make "1" "3.12" "A project" none none
      = Except.ok ⟨"1", "3.12", "A project", none, none⟩
    ∧ isValidModuleIdentifier
        (ProjectConfig.package_name ⟨"1", "3.12", "A project", none, none⟩) = false :=
  ⟨rfl, by decide⟩

/-- C7 amended: when the name is non-empty, consists of ASCII letters,
digits, hyphens, spaces and underscores, and does not start with a
digit, `package_name` is a valid module identifier. -/
theorem package_name_identifier_of_wellformed_name (c : ProjectConfig)
    (hok : nameOkForIdentifier c.name = true) :
    isValidModuleIdentifier c.package_name = true := by
  rcases hd : c.name.data with _ | ⟨a, rest⟩
  · rw [nameOkForIdentifier, hd] at hok
    exact absurd hok (by decide)
  · rw [nameOkForIdentifier, hd] at hok
    obtain ⟨hdig, hall⟩ := Bool.and_eq_true _ _ |>.mp hok
    have hall' := List.all_eq_true.mp hall
    have hdata : c.package_name.data
        = (a :: rest).map (fun x => Char.toLower
            (if (if x = '-' then '_' else x) = ' ' then '_'
              else if x = '-' then '_' else x)) := by
      simp only [ProjectConfig.package_name, pyLower, pyReplaceChar, List.map_map, hd]
      rfl
    rw [isValidModuleIdentifier, hdata, List.map_cons]
    refine Bool.and_eq_true _ _ |>.mpr ⟨?_, ?_⟩
    · have := char_pkg_head a (hall' a (List.mem_cons_self a rest))
        (by simpa using hdig)
      simpa using this
    · refine List.all_eq_true.mpr ?_
      intro x hx
      rcases List.mem_cons.mp hx with hhd | htl
      · subst hhd
        exact char_pkg_all a (hall' a (List.mem_cons_self a rest))
      · obtain ⟨b, hb, rfl⟩ := List.mem_map.mp htl
        exact char_pkg_all b (hall' b (List.mem_cons_of_mem a hb))

/-- Witness for C7's amended theorem at `name = "My-Cool App"`. -/
theorem package_name_identifier_of_wellformed_name_witness :
    nameOkForIdentifier
      (⟨"My-Cool App", "3.12", "d", none, none⟩ : ProjectConfig).name = true
    ∧ isValidModuleIdentifier
        (⟨"My-Cool App", "3.12", "d", none, none⟩ : ProjectConfig).package_name = true :=
  ⟨by decide,
   package_name_identifier_of_wellformed_name ⟨"My-Cool App", "3.12", "d", none, none⟩
     (by decide)⟩

/-- Containment is preserved by appending on the right. -/
theorem pyContains_appL (s t sub : String) (h : pyContains s sub) :
    pyContains (s ++ t) sub := by
  obtain ⟨p, q, rfl⟩ := h
  exact ⟨p, q ++ t, by simp [String.append_assoc]⟩

/-- A checked list-suffix test yields a string decomposition. -/
theorem exists_suffix_of_isSuffixOf (s t : String)
    (h : t.data.isSuffixOf s.data = true) : ∃ A, s = A ++ t := by
  obtain ⟨pre, hp⟩ := List.isSuffixOf_iff_suffix.mp h
  exact ⟨⟨pre⟩, String.ext (by simpa [String.data_append] using hp.symm)⟩

/-- A checked list-prefix test yields a string decomposition. -/
theorem exists_prefix_of_isPrefixOf (s t : String)
    (h : t.data.isPrefixOf s.data = true) : ∃ B, s = t ++ B := by
  obtain ⟨post, hp⟩ := List.isPrefixOf_iff_prefix.mp h
  exact ⟨⟨post⟩, String.ext (by simpa [String.data_append] using hp.symm)⟩

/-- A suffix decomposition of the right factor extends to the product. -/
theorem exists_append_left (P Q p1 : String) (h : ∃ Q0, Q = Q0 ++ p1) :
    ∃ A, P ++ Q = A ++ p1 := by
  obtain ⟨Q0, rfl⟩ := h
  exact ⟨P ++ Q0, by simp [String.append_assoc]⟩

/-- A pattern `p1 ++ v ++ p2` occurs in `A ++ v ++ B` when `A` ends with
`p1` and `B` starts with `p2`. -/
theorem pyContains_around {A v B p1 p2 : String}
    (hA : ∃ A0, A = A0 ++ p1) (hB : ∃ B0, B = p2 ++ B0) :
    pyContains (A ++ v ++ B) (p1 ++ v ++ p2) := by
  obtain ⟨A0, rfl⟩ := hA
  obtain ⟨B0, rfl⟩ := hB
  exact ⟨A0, B0, by simp [String.append_assoc]⟩

/-- Two-variable version of `pyContains_around` for a pattern spanning
two interpolations separated by the literal `m`. -/
theorem pyContains_around2 {A v1 m v2 B p1 p2 : String}
    (hA : ∃ A0, A = A0 ++ p1) (hB : ∃ B0, B = p2 ++ B0) :
    pyContains (A ++ v1 ++ m ++ v2 ++ B) (p1 ++ v1 ++ m ++ v2 ++ p2) := by
  obtain ⟨A0, rfl⟩ := hA
  obtain ⟨B0, rfl⟩ := hB
  exact ⟨A0, B0, by simp [String.append_assoc]⟩

/-- C5: the rendered manifest embeds the name, the description, the
runtime version as a minimum-version constraint, author and email with
their placeholder fallbacks, and the lint target-runtime tag obtained by
stripping the dots from the runtime version. -/
theorem pyproject_embeds_config (c : ProjectConfig) :
    pyContains (_get_pyproject_content c) ("name = \"" ++ c.name ++ "\"")
    ∧ pyContains (_get_pyproject_content c)
        ("description = \"" ++ c.description ++ "\"")
    ∧ pyContains (_get_pyproject_content c)
        ("requires-python = \">=" ++ c.python_version ++ "\"")
    ∧ pyContains (_get_pyproject_content c)
        ("\x7bname = \"" ++ pyOr c.author "Your Name" ++ "\", email = \""
          ++ pyOr c.email "your.email@example.com" ++ "\"\x7d")
    ∧ pyContains (_get_pyproject_content c)
        ("target-version = \"py" ++ pyRemoveChar c.python_version '.' ++ "\"") := by
  unfold _get_pyproject_content
  refine ⟨?_, ?_, ?_, ?_, ?_⟩
  · iterate 12 apply pyContains_appL
    apply pyContains_around
    · exact exists_suffix_of_isSuffixOf _ _ (by decide)
    · exact exists_prefix_of_isPrefixOf _ _ (by decide)
  · iterate 10 apply pyContains_appL
    apply pyContains_around
    · apply exists_append_left
      exact exists_suffix_of_isSuffixOf _ _ (by decide)
    · exact exists_prefix_of_isPrefixOf _ _ (by decide)
  · iterate 8 apply pyContains_appL
    apply pyContains_around
    · apply exists_append_left
      exact exists_suffix_of_isSuffixOf _ _ (by decide)
    · exact exists_prefix_of_isPrefixOf _ _ (by decide)
  · iterate 4 apply pyContains_appL
    apply pyContains_around2
    · apply exists_append_left
      exact exists_suffix_of_isSuffixOf _ _ (by decide)
    · exact exists_prefix_of_isPrefixOf _ _ (by decide)
  · iterate 2 apply pyContains_appL
    apply pyContains_around
    · apply exists_append_left
      exact exists_suffix_of_isSuffixOf _ _ (by decide)
    · exact exists_prefix_of_isPrefixOf _ _ (by decide)

/-- Left factors cancel in string disequalities. -/
theorem string_root_ne (root a b : String) (h : a ≠ b) : root ++ a ≠ root ++ b :=
  fun he => h ((string_append_cancel_left root).mp he)

/-- C10: `create_project` writes the `.python-version` marker at the
project root with content exactly the configuration's `python_version`,
with nothing appended. -/
theorem python_version_marker_content (c : ProjectConfig) (root : String) (fs : FS) :
    create_project c root fs (root ++ "/" ++ ".python-version")
      = some c.python_version := by
  have hne3 : root ++ "/" ++ ".python-version" ≠ root ++ "/" ++ ".gitignore" := by
    intro h
    exact absurd ((string_append_cancel_left (root ++ "/")).mp h) (by decide)
  have hne4 : root ++ "/" ++ ".python-version" ≠ root ++ "/" ++ "README.md" := by
    intro h
    exact absurd ((string_append_cancel_left (root ++ "/")).mp h) (by decide)
  have hne5 : root ++ "/" ++ ".python-version"
      ≠ root ++ "/" ++ ".pre-commit-config.yaml" := by
    intro h
    exact absurd ((string_append_cancel_left (root ++ "/")).mp h) (by decide)
  have hne6 : root ++ "/" ++ ".python-version"
      ≠ root ++ "/" ++ ".github" ++ "/" ++ "workflows" ++ "/" ++ "ci.yml" := by
    intro h
    simp only [String.append_assoc] at h
    exact absurd ((string_append_cancel_left root).mp h) (by decide)
  have hne7 : root ++ "/" ++ ".python-version"
      ≠ root ++ "/" ++ "src" ++ "/" ++ c.package_name ++ "/" ++ "__init__.py" := by
    intro h
    simp only [String.append_assoc] at h
    have h1 := (string_append_cancel_left root).mp h
    have h2 := (string_append_cancel_left "/").mp h1
    exact string_append_head_ne (by decide) (by decide) h2.symm
  have hne8 : root ++ "/" ++ ".python-version"
      ≠ root ++ "/" ++ "src" ++ "/" ++ c.package_name ++ "/" ++ "main.py" := by
    intro h
    simp only [String.append_assoc] at h
    have h1 := (string_append_cancel_left root).mp h
    have h2 := (string_append_cancel_left "/").mp h1
    exact string_append_head_ne (by decide) (by decide) h2.symm
  have hne9 : root ++ "/" ++ ".python-version"
      ≠ root ++ "/" ++ "tests" ++ "/" ++ "__init__.py" := by
    intro h
    simp only [String.append_assoc] at h
    exact absurd ((string_append_cancel_left root).mp h) (by decide)
  have hne10 : root ++ "/" ++ ".python-version"
      ≠ root ++ "/" ++ "tests" ++ "/" ++ ("test_" ++ c.package_name ++ ".py") := by
    intro h
    simp only [String.append_assoc] at h
    have h1 := (string_append_cancel_left root).mp h
    have h2 := (string_append_cancel_left "/").mp h1
    exact string_append_head_ne (by decide) (by decide) h2.symm
  simp only [create_project, _generate_project_files, _generate_file, write_text]
  rw [if_neg hne10, if_neg hne9, if_neg hne8, if_neg hne7, if_neg hne6, if_neg hne5,
    if_neg hne4, if_neg hne3]
  simp

/-- C3: re-running `create_project` on the same root is a total function
of the model (no failure), writes the same contents again (idempotence,
last-write-wins), and every path outside the generated set keeps its
previous content. -/
theorem create_project_rerun (c : ProjectConfig) (root : String) (fs : FS) :
    (∀ p, create_project c root (create_project c root fs) p
        = create_project c root fs p)
    ∧ (∀ p, p ∉ generated_paths c root → create_project c root fs p = fs p) :=
  ⟨fun p => generate_project_files_idem c root fs p,
   fun p hp => generate_project_files_frame c root fs p hp⟩

/-- Witness for C3 at a concrete configuration, root, filesystem and
unrelated path. -/
theorem create_project_rerun_witness :
    ("x" ∉ generated_paths ⟨"demo", "3.12", "A demo", none, none⟩ "r")
    ∧ create_project ⟨"demo", "3.12", "A demo", none, none⟩ "r" (fun _ => none) "x"
        = (fun _ => none : FS) "x"
    ∧ create_project ⟨"demo", "3.12", "A demo", none, none⟩ "r"
        (create_project ⟨"demo", "3.12", "A demo", none, none⟩ "r" (fun _ => none)) "x"
      = create_project ⟨"demo", "3.12", "A demo", none, none⟩ "r" (fun _ => none) "x" :=
  ⟨by decide,
   (create_project_rerun ⟨"demo", "3.12", "A demo", none, none⟩ "r" (fun _ => none)).2
     "x" (by decide),
   (create_project_rerun ⟨"demo", "3.12", "A demo", none, none⟩ "r" (fun _ => none)).1
     "x"⟩

/-- C1: `create_project` writes exactly the ten generated files at their
fixed relative paths under the root: no path outside the generated set
changes, every generated path holds a file afterwards, and for
`name = "demo"` the four named paths exist with non-empty content. -/
theorem create_project_writes_generated_set (c : ProjectConfig) (root : String)
    (fs : FS) :
    (∀ p, p ∉ generated_paths c root → create_project c root fs p = fs p)
    ∧ (∀ p ∈ generated_paths c root, (create_project c root fs p).isSome = true)
    ∧ (c.name = "demo" →
        (∃ s, create_project c root fs
            (root ++ "/" ++ "src" ++ "/" ++ "demo" ++ "/" ++ "__init__.py")
          = some s ∧ s ≠ "")
        ∧ (∃ s, create_project c root fs
            (root ++ "/" ++ "src" ++ "/" ++ "demo" ++ "/" ++ "main.py")
          = some s ∧ s ≠ "")
        ∧ (∃ s, create_project c root fs
            (root ++ "/" ++ "tests" ++ "/" ++ "test_demo.py")
          = some s ∧ s ≠ "")
        ∧ (∃ s, create_project c root fs
            (root ++ "/" ++ ".github" ++ "/" ++ "workflows" ++ "/" ++ "ci.yml")
          = some s ∧ s ≠ "")) := by
  refine ⟨fun p hp => generate_project_files_frame c root fs p hp,
    fun p hp => generate_project_files_written c root fs p hp, ?_⟩
  intro hdemo
  have hpn : c.package_name = "demo" := by
    unfold ProjectConfig.package_name
    rw [hdemo]
    decide
  have n7m : root ++ "/" ++ "src" ++ "/" ++ "demo" ++ "/" ++ "__init__.py"
      ≠ root ++ "/" ++ "src" ++ "/" ++ "demo" ++ "/" ++ "main.py" := by
    simp only [String.append_assoc]
    exact string_root_ne root _ _ (by decide)
  have n7i : root ++ "/" ++ "src" ++ "/" ++ "demo" ++ "/" ++ "__init__.py"
      ≠ root ++ "/" ++ "tests" ++ "/" ++ "__init__.py" := by
    simp only [String.append_assoc]
    exact string_root_ne root _ _ (by decide)
  have n7t : root ++ "/" ++ "src" ++ "/" ++ "demo" ++ "/" ++ "__init__.py"
      ≠ root ++ "/" ++ "tests" ++ "/" ++ ("test_" ++ "demo" ++ ".py") := by
    simp only [String.append_assoc]
    exact string_root_ne root _ _ (by decide)
  have n8i : root ++ "/" ++ "src" ++ "/" ++ "demo" ++ "/" ++ "main.py"
      ≠ root ++ "/" ++ "tests" ++ "/" ++ "__init__.py" := by
    simp only [String.append_assoc]
    exact string_root_ne root _ _ (by decide)
  have n8t : root ++ "/" ++ "src" ++ "/" ++ "demo" ++ "/" ++ "main.py"
      ≠ root ++ "/" ++ "tests" ++ "/" ++ ("test_" ++ "demo" ++ ".py") := by
    simp only [String.append_assoc]
    exact string_root_ne root _ _ (by decide)
  have n6a : root ++ "/" ++ ".github" ++ "/" ++ "workflows" ++ "/" ++ "ci.yml"
      ≠ root ++ "/" ++ "src" ++ "/" ++ "demo" ++ "/" ++ "__init__.py" := by
    simp only [String.append_assoc]
    exact string_root_ne root _ _ (by decide)
  have n6b : root ++ "/" ++ ".github" ++ "/" ++ "workflows" ++ "/" ++ "ci.yml"
      ≠ root ++ "/" ++ "src" ++ "/" ++ "demo" ++ "/" ++ "main.py" := by
    simp only [String.append_assoc]
    exact string_root_ne root _ _ (by decide)
  have n6c : root ++ "/" ++ ".github" ++ "/" ++ "workflows" ++ "/" ++ "ci.yml"
      ≠ root ++ "/" ++ "tests" ++ "/" ++ "__init__.py" := by
    simp only [String.append_assoc]
    exact string_root_ne root _ _ (by decide)
  have n6d : root ++ "/" ++ ".github" ++ "/" ++ "workflows" ++ "/" ++ "ci.yml"
      ≠ root ++ "/" ++ "tests" ++ "/" ++ ("test_" ++ "demo" ++ ".py") := by
    simp only [String.append_assoc]
    exact string_root_ne root _ _ (by decide)
  have e10 : root ++ "/" ++ "tests" ++ "/" ++ "test_demo.py"
      = root ++ "/" ++ "tests" ++ "/" ++ ("test_" ++ "demo" ++ ".py") := by
    simp only [String.append_assoc]
    exact congrArg (fun x => root ++ x) (by decide)
  refine ⟨⟨_get_init_content c, ?_, ?_⟩, ⟨_get_main_content c, ?_, ?_⟩,
    ⟨_get_test_content c, ?_, ?_⟩, ⟨_get_github_actions_content c, ?_, ?_⟩⟩
  · simp only [create_project, _generate_project_files, _generate_file, write_text, hpn]
    rw [if_neg n7t, if_neg n7i, if_neg n7m]
    simp
  · unfold _get_init_content
    repeat apply string_append_ne_empty
    decide
  · simp only [create_project, _generate_project_files, _generate_file, write_text, hpn]
    rw [if_neg n8t, if_neg n8i]
    simp
  · unfold _get_main_content
    repeat apply string_append_ne_empty
    decide
  · simp only [create_project, _generate_project_files, _generate_file, write_text, hpn]
    rw [if_pos e10]
  · unfold _get_test_content
    rw [hpn]
    repeat apply string_append_ne_empty
    decide
  · simp only [create_project, _generate_project_files, _generate_file, write_text, hpn]
    rw [if_neg n6d, if_neg n6c, if_neg n6b, if_neg n6a]
    simp
  · unfold _get_github_actions_content
    repeat apply string_append_ne_empty
    decide

/-- Witness for C1 at a concrete configuration, root and filesystem. -/
theorem create_project_writes_generated_set_witness :
    ("x" ∉ generated_paths ⟨"demo", "3.12", "A demo", none, none⟩ "r"
      ∧ create_project ⟨"demo", "3.12", "A demo", none, none⟩ "r" (fun _ => none) "x"
          = (fun _ => none : FS) "x")
    ∧ ("r" ++ "/" ++ "pyproject.toml"
          ∈ generated_paths ⟨"demo", "3.12", "A demo", none, none⟩ "r"
      ∧ (create_project ⟨"demo", "3.12", "A demo", none, none⟩ "r" (fun _ => none)
          ("r" ++ "/" ++ "pyproject.toml")).isSome = true)
    ∧ (∃ s, create_project ⟨"demo", "3.12", "A demo", none, none⟩ "r" (fun _ => none)
          ("r" ++ "/" ++ "src" ++ "/" ++ "demo" ++ "/" ++ "__init__.py")
        = some s ∧ s ≠ "") :=
  ⟨⟨by decide,
    (create_project_writes_generated_set ⟨"demo", "3.12", "A demo", none, none⟩ "r"
      (fun _ => none)).1 "x" (by decide)⟩,
   ⟨by decide,
    (create_project_writes_generated_set ⟨"demo", "3.12", "A demo", none, none⟩ "r"
      (fun _ => none)).2.1 ("r" ++ "/" ++ "pyproject.toml") (by decide)⟩,
   ((create_project_writes_generated_set ⟨"demo", "3.12", "A demo", none, none⟩ "r"
      (fun _ => none)).2.2 rfl).1⟩
